import Mathlib

/-!
Verification of `job_agent.py` against its design specification.

The Python module is shallowly embedded: pure data flow becomes Lean
functions, the environment (`os.getenv`) becomes an explicit
`String → Option String` (or `Option String`) argument, and effectful
collaborators (the HTTP search call, the SMTP session, the language model)
become explicit oracles passed as arguments.  A raised Python exception is
an `Except.error`; a Python value that may be a string or a list is the
inductive `PyRet`.  Framework components that the module only configures
(the agent executor, the conversation buffer) are modelled from the spec
and marked as such in their doc comments.
-/

/-- Python truthiness of an optional string: `None` and `""` are falsy
(`if not serpapi_key:` at `job_agent.py:72`). -/
def pyTruthy : Option String → Bool
  | none => false
  | some s => !s.isEmpty

/-- One entry of a job's `related_links` list; `link` is the value of its
`"link"` key (`none` models a missing key, as `dict.get` returns `None`). -/
structure RelatedLink where
  link : Option String
deriving DecidableEq, Repr

/-- One entry of the response's `jobs_results` list, keeping exactly the keys
that `get_job_postings` reads; `none` models a missing key. -/
structure SerpJob where
  title : Option String
  company_name : Option String
  location : Option String
  related_links : Option (List RelatedLink)
deriving DecidableEq, Repr

/-- The decoded JSON body of the search response, keeping the only key the
code inspects (`'jobs_results' in data` at `job_agent.py:86`). -/
structure SerpResponse where
  jobs_results : Option (List SerpJob)
deriving DecidableEq, Repr

/-- The dict appended per job at `job_agent.py:89-94`: exactly the keys
`title`, `company`, `location`, `link`. -/
structure JobRecord where
  title : Option String
  company : Option String
  location : Option String
  link : Option String
deriving DecidableEq, Repr

/-- A Python value returned by `get_job_postings`: either a string (the
missing-credentials message) or a list of job records. -/
inductive PyRet where
  | str (s : String)
  | list (l : List JobRecord)
deriving DecidableEq, Repr

/-- The `link` value computed at `job_agent.py:93`: the first
`related_links` entry's `"link"` value when `related_links` is truthy
(present and non-empty), else the literal `'No link available'`. -/
def jobLink (job : SerpJob) : Option String :=
  match job.related_links with
  | some (rl :: _) => rl.link
  | some [] => some "No link available"
  | none => some "No link available"

/-- The record built for one entry of `jobs_results` (`job_agent.py:89-94`). -/
def mkJobRecord (job : SerpJob) : JobRecord :=
  { title := job.title
    company := job.company_name
    location := job.location
    link := jobLink job }

/-- `get_job_postings` (`job_agent.py:66-96`).  `serpapi_key` is
`os.getenv("SERPAPI_API_KEY")`; `http` is the oracle for
`requests.get(search_url, params).json()` on the given query, where
`Except.error e` models a raised exception (connection error, JSON decode
error).  The first component of the result records whether an HTTP request
was performed; the second is the call's outcome, `Except.error` meaning the
exception propagates to the caller. -/
def get_job_postings (serpapi_key : Option String) (query : String)
    (http : String → Except String SerpResponse) : Bool × Except String PyRet :=
  if !pyTruthy serpapi_key then
    (false, Except.ok (PyRet.str "Error: SERPAPI_API_KEY not set. Cannot perform search."))
  else
    match http query with
    | Except.error e => (true, Except.error e)
    | Except.ok data =>
      match data.jobs_results with
      | some jrs => (true, Except.ok (PyRet.list (jrs.map mkJobRecord)))
      | none => (true, Except.ok (PyRet.list []))

/-- `EmailTool` (`job_agent.py:24-30`); the credential fields come from
`os.getenv` and may be `None`. -/
structure EmailTool where
  sender_email : Option String
  sender_password : Option String
  smtp_server : String
  smtp_port : Nat
deriving DecidableEq, Repr

/-- `EmailTool.send_email` (`job_agent.py:32-46`).  The whole `try` body
(MIME construction, `starttls`, `login`, `send_message`) is abstracted by the
`smtp` oracle; `Except.error e` is any exception raised inside the `try`,
which the `except Exception` clause converts to the failure string. -/
def EmailTool.send_email (_t : EmailTool) (to_email _subject _body : String)
    (smtp : Except String Unit) : String :=
  match smtp with
  | Except.ok _ => "Email successfully sent to " ++ to_email ++ "."
  | Except.error e => "Failed to send email. Error: " ++ e

/-- `send_job_email` (`job_agent.py:48-64`): builds an `EmailTool` from the
environment and delegates to `EmailTool.send_email` with the fixed subject
and templated body. -/
def send_job_email (env : String → Option String)
    (job_details recipient_email : String) (smtp : Except String Unit) : String :=
  let email_tool : EmailTool :=
    { sender_email := env "EMAIL_ADDRESS"
      sender_password := env "EMAIL_PASSWORD"
      smtp_server := "smtp.gmail.com"
      smtp_port := 587 }
  let subject := "Your Daily AI Engineering Job Postings"
  let body := "Hello,\n\nHere are the new AI engineering job postings I found for you. Hope these help you land that dream role!\n\n" ++ job_details ++ "\n\nBest regards,\nYour Job Agent"
  email_tool.send_email recipient_email subject body smtp

/-- A Python runtime error relevant to module evaluation. -/
inductive PyError where
  | nameError (name : String)
deriving DecidableEq, Repr

/-- A top-level Python statement, abstracted to the names it binds in the
module namespace and the module-level names its evaluation looks up. -/
inductive Stmt where
  | importNames (names : List String)
  | exprStmt (uses : List String)
  | classDef (name : String)
  | decoratedDef (decorator : String) (name : String)
  | assign (name : String) (uses : List String)
  | mainGuard (uses : List String)
deriving DecidableEq, Repr

/-- The names a statement adds to the module namespace when it succeeds. -/
def Stmt.binds : Stmt → List String
  | Stmt.importNames ns => ns
  | Stmt.exprStmt _ => []
  | Stmt.classDef n => [n]
  | Stmt.decoratedDef _ n => [n]
  | Stmt.assign n _ => [n]
  | Stmt.mainGuard _ => []

/-- Evaluate one top-level statement in the current module namespace `env`.
Looking up a name that is not bound raises `NameError`; in particular a
decorator expression is evaluated when the `def` statement executes, so an
unbound decorator name aborts evaluation before the function is bound. -/
def evalStmt (env : List String) : Stmt → Except PyError (List String)
  | Stmt.importNames ns => Except.ok (env ++ ns)
  | Stmt.exprStmt uses =>
    match uses.find? (fun u => !env.contains u) with
    | some u => Except.error (PyError.nameError u)
    | none => Except.ok env
  | Stmt.classDef n => Except.ok (env ++ [n])
  | Stmt.decoratedDef dec n =>
    if env.contains dec then Except.ok (env ++ [n])
    else Except.error (PyError.nameError dec)
  | Stmt.assign n uses =>
    match uses.find? (fun u => !env.contains u) with
    | some u => Except.error (PyError.nameError u)
    | none => Except.ok (env ++ [n])
  | Stmt.mainGuard uses =>
    match uses.find? (fun u => !env.contains u) with
    | some u => Except.error (PyError.nameError u)
    | none => Except.ok env

/-- Evaluate the statements of a module in order, stopping at the first
raised error; the error carries the module namespace at the point of
failure, so one can see which bindings had been created before the abort. -/
def evalStmts (env : List String) : List Stmt → Except (PyError × List String) (List String)
  | [] => Except.ok env
  | s :: rest =>
    match evalStmt env s with
    | Except.error e => Except.error (e, env)
    | Except.ok env2 => evalStmts env2 rest

/-- The top-level statement sequence of `job_agent.py`, in source order:
the imports (lines 1-11), `load_dotenv()` (line 22), `class EmailTool`
(line 24), the two `@tool`-decorated defs (lines 48 and 66), the agent and
tool initialization assignments (lines 100-126), and the `__main__` guard
(lines 128-143). -/
def jobAgentModule : List Stmt :=
  [ Stmt.importNames ["os"],
    Stmt.importNames ["smtplib"],
    Stmt.importNames ["MIMEText"],
    Stmt.importNames ["List", "Dict"],
    Stmt.importNames ["requests"],
    Stmt.importNames ["BeautifulSoup"],
    Stmt.importNames ["OpenAI"],
    Stmt.importNames ["initialize_agent", "AgentType", "Tool"],
    Stmt.importNames ["ConversationBufferMemory"],
    Stmt.importNames ["load_dotenv"],
    Stmt.exprStmt ["load_dotenv"],
    Stmt.classDef "EmailTool",
    Stmt.decoratedDef "tool" "send_job_email",
    Stmt.decoratedDef "tool" "get_job_postings",
    Stmt.assign "llm" ["OpenAI"],
    Stmt.assign "tools" ["Tool", "get_job_postings", "send_job_email"],
    Stmt.assign "memory" ["ConversationBufferMemory"],
    Stmt.assign "agent_chain" ["initialize_agent", "tools", "llm", "AgentType", "memory"],
    Stmt.mainGuard ["agent_chain"] ]

/-- The module namespace just before the first `@tool` statement runs:
everything the imports, `load_dotenv()` and `class EmailTool` bound. -/
def preToolEnv : List String :=
  ["os", "smtplib", "MIMEText", "List", "Dict", "requests", "BeautifulSoup",
   "OpenAI", "initialize_agent", "AgentType", "Tool", "ConversationBufferMemory",
   "load_dotenv", "EmailTool"]

/-- Python's `str.lower()` (`user_input.lower()` at `job_agent.py:133`),
written as a structural map over the character list so that it computes by
kernel reduction. -/
def pyLower (s : String) : String :=
  ⟨s.data.map Char.toLower⟩

/-- An observable event of the `__main__` read-eval loop
(`job_agent.py:131-143`): the agent being invoked on a request, a printed
response, or a printed error message. -/
inductive SessionEvent where
  | invoked (request : String)
  | printedResponse (response : String)
  | printedError (message : String)
deriving DecidableEq, Repr

/-- The `__main__` loop (`job_agent.py:131-143`).  `agentRun` models
`agent_chain.run`, with `Except.error e` a raised exception; the input list
models the successive results of `input()`.  Each non-sentinel line is
handled inside `try`: a response is printed on success, and any raised
exception is caught and printed as `An error occurred: ...`, after which the
loop continues with the next line.  A line whose lowercasing is `exit`
breaks out of the loop before the agent is invoked. -/
def runSession (agentRun : String → Except String String) : List String → List SessionEvent
  | [] => []
  | line :: rest =>
    if pyLower line = "exit" then []
    else
      match agentRun line with
      | Except.ok resp =>
        SessionEvent.invoked line :: SessionEvent.printedResponse resp ::
          runSession agentRun rest
      | Except.error e =>
        SessionEvent.invoked line :: SessionEvent.printedError ("An error occurred: " ++ e) ::
          runSession agentRun rest

/-- Modelled from the spec: the role of a conversation turn (§3,
`ConversationTurn.role`). -/
inductive Role where
  | user
  | agent
deriving DecidableEq, Repr

/-- Modelled from the spec: one turn of Conversation Memory (§3); the append
sequence of the containing list gives the logical timestamp order. -/
structure ConversationTurn where
  role : Role
  text : String
deriving DecidableEq, Repr

/-- Modelled from the spec: Conversation Memory (§4.2).  The framework's
`ConversationBufferMemory`, constructed at `job_agent.py:118`, is not part of
the repository source; besides the ordered, append-only turn log this model
keeps the constructor's configuration fields (the memory key under which the
buffer is exposed, and the role prefixes used when rendering). -/
structure ConversationMemory where
  memory_key : String
  human_prefix : String
  ai_prefix : String
  turns : List ConversationTurn
deriving DecidableEq, Repr

/-- Modelled from the spec: rendering of a single turn as prompt text, the
role's prefix followed by the turn's text. -/
def renderTurn (hp ap : String) (t : ConversationTurn) : String :=
  match t.role with
  | Role.user => hp ++ ": " ++ t.text
  | Role.agent => ap ++ ": " ++ t.text

/-- Modelled from the spec: `as_prompt_context()` (§4.2) renders the ordered
turns into the exact text block the Reasoning Engine will see. -/
def ConversationMemory.as_prompt_context (m : ConversationMemory) : String :=
  String.intercalate "\n" (m.turns.map (renderTurn m.human_prefix m.ai_prefix))

/-- Modelled from the spec: a registered capability (§3); `invoke` is the
adapter function, which per the adapter contract returns a string. -/
structure Capability where
  name : String
  description : String
  invoke : String → String

/-- Modelled from the spec: the registry-level error for an unregistered
name (§4.1, `UnknownCapabilityError`). -/
inductive RegistryError where
  | unknownCapability (name : String)
deriving DecidableEq, Repr

/-- Modelled from the spec: `Capability Registry.invoke` (§4.1): fails with
`UnknownCapabilityError` if the name is not registered, otherwise calls the
capability's `invoke` and returns its string verbatim. -/
def registryInvoke (reg : List Capability) (name input : String) :
    Except RegistryError String :=
  match reg.find? (fun c => c.name == name) with
  | some c => Except.ok (c.invoke input)
  | none => Except.error (RegistryError.unknownCapability name)

/-- Modelled from the spec: a parsed reasoning decision (§4.3): either an
action request or a final answer. -/
inductive Decision where
  | act (action : String) (action_input : String)
  | finish (finalAnswer : String)
deriving DecidableEq, Repr

/-- Modelled from the spec: a completed scratchpad step (§3, `AgentStep`),
kept to the fields the Dispatch Loop writes on the action path. -/
structure AgentStep where
  action : String
  action_input : String
  observation : String
deriving DecidableEq, Repr

/-- Modelled from the spec: the observation string the Dispatch Loop
synthesizes when a decision names a capability absent from the registry
(§4.4 tie-break). -/
def unknownCapabilityObservation (name : String) : String :=
  "Error: " ++ name ++ " is not a registered capability; choose one of the capabilities listed in the registry."

/-- Modelled from the spec: the outcome of one request (§4.4): a final
answer, or the `IterationLimitExceeded` failure. -/
inductive DispatchOutcome where
  | finalAnswer (answer : String)
  | iterationLimitExceeded
deriving DecidableEq, Repr

/-- Modelled from the spec: the Dispatch Loop state machine (§4.4).
`reason` abstracts the Reasoning Engine: given the request, the rendered
memory context and the scratchpad so far, it yields a parsed decision.  The
fuel argument is the remaining iteration budget; exhausting it is the
`IterationLimitExceeded` outcome.  A decision naming an unknown capability
is not fatal: the registry error is converted to a synthesized observation
and fed into the next iteration. -/
def dispatchLoop (reason : String → String → List AgentStep → Decision)
    (reg : List Capability) (request memCtx : String) :
    Nat → List AgentStep → DispatchOutcome
  | 0, _ => DispatchOutcome.iterationLimitExceeded
  | Nat.succ fuel, pad =>
    match reason request memCtx pad with
    | Decision.finish a => DispatchOutcome.finalAnswer a
    | Decision.act name inp =>
      let obs :=
        match registryInvoke reg name inp with
        | Except.ok s => s
        | Except.error (RegistryError.unknownCapability n) => unknownCapabilityObservation n
      dispatchLoop reason reg request memCtx fuel (pad ++ [⟨name, inp, obs⟩])

/-- Modelled from the spec: `handle_request` (§6, §4.4 steps 1, 3 and 5):
run the Dispatch Loop on an empty scratchpad with the rendered memory as
context; on a final answer append exactly the user turn and the agent turn
to Conversation Memory, on `IterationLimitExceeded` leave memory untouched. -/
def handle_request (reason : String → String → List AgentStep → Decision)
    (reg : List Capability) (maxIter : Nat)
    (mem : ConversationMemory) (request : String) :
    DispatchOutcome × ConversationMemory :=
  match dispatchLoop reason reg request mem.as_prompt_context maxIter [] with
  | DispatchOutcome.finalAnswer a =>
    (DispatchOutcome.finalAnswer a,
      { mem with turns := mem.turns ++ [⟨Role.user, request⟩, ⟨Role.agent, a⟩] })
  | DispatchOutcome.iterationLimitExceeded =>
    (DispatchOutcome.iterationLimitExceeded, mem)

/-- Discriminator: did the call raise (propagate an exception)? -/
def isRaised (r : Except String PyRet) : Bool :=
  match r with
  | Except.error _ => true
  | Except.ok _ => false

/-- Discriminator: did the call return a Python string? -/
def retIsString (r : Except String PyRet) : Bool :=
  match r with
  | Except.ok (PyRet.str _) => true
  | _ => false

/-- A concrete successful search response with one job and no
`related_links`, used to evaluate the embedding at concrete inputs. -/
def sampleResponse : SerpResponse :=
  { jobs_results := some [ { title := some "AI Engineer"
                             company_name := some "Acme"
                             location := some "NY"
                             related_links := none } ] }

/-- Claim C7: if `SERPAPI_API_KEY` is not set in the environment, then for
every query `get_job_postings` performs no HTTP request and returns exactly
the string `"Error: SERPAPI_API_KEY not set. Cannot perform search."`. -/
theorem get_job_postings_missing_key (query : String)
    (http : String → Except String SerpResponse) :
    get_job_postings none query http =
      (false, Except.ok (PyRet.str "Error: SERPAPI_API_KEY not set. Cannot perform search.")) :=
  rfl

/-- Claim C1 is false on the code at a concrete input: with the key set, an
exception raised by the HTTP request propagates out of `get_job_postings`
instead of being converted to an error-message string, and a successful
search returns a Python list, not a string. -/
theorem get_job_postings_not_string_contract :
    isRaised (get_job_postings (some "k") "AI engineer jobs"
        (fun _ => Except.error "requests.exceptions.ConnectionError")).2 = true
    ∧ (get_job_postings (some "k") "AI engineer jobs"
        (fun _ => Except.error "requests.exceptions.ConnectionError")).2 =
        Except.error "requests.exceptions.ConnectionError"
    ∧ retIsString (get_job_postings (some "k") "AI engineer jobs"
        (fun _ => Except.ok sampleResponse)).2 = false :=
  ⟨rfl, rfl, rfl⟩

/-- Claim C1 (amended): for every query, `get_job_postings` returns the
missing-credentials error string when the key is unset (without any HTTP
request); otherwise it performs the HTTP request, propagates any exception
raised by it, and on success returns a list of
`{title, company, location, link}` records rather than a string. -/
theorem get_job_postings_contract (key : Option String) (query : String)
    (http : String → Except String SerpResponse) :
    (pyTruthy key = false →
      get_job_postings key query http =
        (false, Except.ok (PyRet.str "Error: SERPAPI_API_KEY not set. Cannot perform search.")))
    ∧ (∀ e, pyTruthy key = true → http query = Except.error e →
        get_job_postings key query http = (true, Except.error e))
    ∧ (∀ data, pyTruthy key = true → http query = Except.ok data →
        get_job_postings key query http =
          (true, Except.ok (PyRet.list ((data.jobs_results.getD []).map mkJobRecord)))) := by
  refine ⟨?_, ?_, ?_⟩
  · intro hk
    simp [get_job_postings, hk]
  · intro e hk he
    simp [get_job_postings, hk, he]
  · intro data hk hd
    cases hj : data.jobs_results <;> simp [get_job_postings, hk, hd, hj]

/-- Witness for the amended claim C1 at a concrete successful search. -/
theorem get_job_postings_contract_witness :
    get_job_postings (some "k") "q" (fun _ => Except.ok { jobs_results := none }) =
      (true, Except.ok (PyRet.list [])) :=
  (get_job_postings_contract (some "k") "q"
      (fun _ => Except.ok { jobs_results := none })).2.2 { jobs_results := none } rfl rfl

/-- Claim C9: when the response JSON has no `jobs_results` key the function
returns the empty Python list (not a string); when `jobs_results` is present
each returned record is exactly a `{title, company, location, link}` record,
with `link` the first `related_links` entry's link or `'No link available'`
(in particular the latter whenever `related_links` is absent); and the
missing-credentials return is a string. -/
theorem get_job_postings_success_shape (key : Option String) (query : String)
    (http : String → Except String SerpResponse) (data : SerpResponse) :
    (pyTruthy key = true → http query = Except.ok data → data.jobs_results = none →
      (get_job_postings key query http).2 = Except.ok (PyRet.list []))
    ∧ (∀ jrs, pyTruthy key = true → http query = Except.ok data →
        data.jobs_results = some jrs →
        (get_job_postings key query http).2 = Except.ok (PyRet.list (jrs.map mkJobRecord)))
    ∧ (∀ job, (mkJobRecord job).link =
        match job.related_links with
        | some (rl :: _) => rl.link
        | _ => some "No link available")
    ∧ (∀ job, job.related_links = none →
        (mkJobRecord job).link = some "No link available")
    ∧ (pyTruthy key = false →
        (get_job_postings key query http).2 =
          Except.ok (PyRet.str "Error: SERPAPI_API_KEY not set. Cannot perform search.")) := by
  refine ⟨?_, ?_, ?_, ?_, ?_⟩
  · intro hk hd hj
    simp [get_job_postings, hk, hd, hj]
  · intro jrs hk hd hj
    simp [get_job_postings, hk, hd, hj]
  · intro job
    cases hj : job.related_links with
    | none => simp [mkJobRecord, jobLink, hj]
    | some ls => cases ls <;> simp [mkJobRecord, jobLink, hj]
  · intro job hj
    simp [mkJobRecord, jobLink, hj]
  · intro hk
    simp [get_job_postings, hk]

/-- Witness for claim C9: a response without `jobs_results` yields `[]`. -/
theorem get_job_postings_success_shape_witness :
    (get_job_postings (some "k") "q" (fun _ => Except.ok { jobs_results := none })).2 =
      Except.ok (PyRet.list []) :=
  (get_job_postings_success_shape (some "k") "q"
      (fun _ => Except.ok { jobs_results := none }) { jobs_results := none }).1 rfl rfl rfl

/-- Claim C4: for every recipient, subject and body the email capability
returns a human-readable string and never raises: on SMTP success the
success string names the recipient, and every exception raised inside the
`try` block (credential or transport failure) is converted to the returned
failure string. -/
theorem send_job_email_reports (env : String → Option String)
    (job_details recipient_email : String) (smtp : Except String Unit) :
    (smtp = Except.ok () →
      send_job_email env job_details recipient_email smtp =
        "Email successfully sent to " ++ recipient_email ++ ".")
    ∧ (∀ e, smtp = Except.error e →
        send_job_email env job_details recipient_email smtp =
          "Failed to send email. Error: " ++ e) := by
  constructor
  · intro h
    subst h
    rfl
  · intro e h
    subst h
    rfl

/-- Witness for claim C4 at a concrete recipient and SMTP outcome. -/
theorem send_job_email_reports_witness :
    send_job_email (fun _ => none) "details" "alice@example.com" (Except.ok ()) =
      "Email successfully sent to alice@example.com." :=
  (send_job_email_reports (fun _ => none) "details" "alice@example.com" (Except.ok ())).1 rfl

/-- Claim C2: the decorator name `tool` is bound nowhere in the module, so
evaluating the module raises `NameError` at the first `@tool` statement; at
that point none of `llm`, `tools`, `memory` or `agent_chain` exist, so no
agent, registry or loop behavior can run. -/
theorem module_load_nameError_tool :
    evalStmts [] jobAgentModule = Except.error (PyError.nameError "tool", preToolEnv)
    ∧ "tool" ∉ (jobAgentModule.map Stmt.binds).flatten
    ∧ "llm" ∉ preToolEnv ∧ "tools" ∉ preToolEnv
    ∧ "memory" ∉ preToolEnv ∧ "agent_chain" ∉ preToolEnv := by
  refine ⟨rfl, ?_, ?_, ?_, ?_, ?_⟩ <;> decide

/-- Claim C5: a request whose handling raises does not terminate the
session: the error is printed as `An error occurred: ...` and the loop
continues processing the remaining inputs exactly as before. -/
theorem session_survives_request_error (agentRun : String → Except String String)
    (line e : String) (rest : List String)
    (hline : pyLower line ≠ "exit") (herr : agentRun line = Except.error e) :
    runSession agentRun (line :: rest) =
      SessionEvent.invoked line ::
        SessionEvent.printedError ("An error occurred: " ++ e) ::
          runSession agentRun rest := by
  simp only [runSession, if_neg hline, herr]

/-- Witness for claim C5: an always-raising agent still yields a printed
error followed by the continuation of the session. -/
theorem session_survives_request_error_witness :
    runSession (fun _ => Except.error "boom") ["find jobs", "more"] =
      SessionEvent.invoked "find jobs" ::
        SessionEvent.printedError ("An error occurred: " ++ "boom") ::
          runSession (fun _ => Except.error "boom") ["more"] :=
  session_survives_request_error (fun _ => Except.error "boom") "find jobs" "boom" ["more"]
    (by decide) rfl

/-- Dropping everything from the sentinel on: the session on
`pre ++ "exit" :: rest` produces exactly the events of the session on
`pre` alone. -/
theorem runSession_append_exit (agentRun : String → Except String String)
    (rest : List String) :
    ∀ pre : List String,
      runSession agentRun (pre ++ "exit" :: rest) = runSession agentRun pre
  | [] => by
    have hx : pyLower "exit" = "exit" := by decide
    simp [runSession, hx]
  | line :: pre => by
    by_cases h : pyLower line = "exit"
    · simp [runSession, h]
    · cases hr : agentRun line <;>
        simp [runSession, h, hr, runSession_append_exit agentRun rest pre]

/-- The sentinel line itself is never handed to the agent: no `invoked
"exit"` event ever occurs in a session. -/
theorem runSession_never_invokes_exit (agentRun : String → Except String String) :
    ∀ inputs : List String,
      SessionEvent.invoked "exit" ∉ runSession agentRun inputs
  | [] => by simp [runSession]
  | line :: rest => by
    by_cases h : pyLower line = "exit"
    · simp [runSession, h]
    · have hne : ¬ "exit" = line := by
        intro hl
        apply h
        rw [← hl]
        decide
      cases hr : agentRun line <;>
        simp [runSession, h, hr, hne, runSession_never_invokes_exit agentRun rest]

/-- Claim C10: entering the sentinel `exit` ends the interactive session —
the loop breaks there, producing no further events, and the sentinel input
is never given to the agent, so no response is produced for it. -/
theorem exit_sentinel_ends_session (agentRun : String → Except String String)
    (pre rest : List String) :
    runSession agentRun (pre ++ "exit" :: rest) = runSession agentRun pre
    ∧ runSession agentRun ["exit"] = []
    ∧ SessionEvent.invoked "exit" ∉ runSession agentRun (pre ++ "exit" :: rest) :=
  ⟨runSession_append_exit agentRun rest pre,
    by
      have hx : pyLower "exit" = "exit" := by decide
      simp [runSession, hx],
    runSession_never_invokes_exit agentRun (pre ++ "exit" :: rest)⟩

/-- Claim C3: for every request, if the Dispatch Loop produces a final
answer within the iteration bound then Conversation Memory grows by exactly
the user turn and the agent turn, and nothing else; if the iteration bound
is exceeded, Conversation Memory is left completely unchanged. -/
theorem handle_request_memory_frame
    (reason : String → String → List AgentStep → Decision)
    (reg : List Capability) (maxIter : Nat)
    (mem : ConversationMemory) (request : String) :
    (∀ a, (handle_request reason reg maxIter mem request).1 = DispatchOutcome.finalAnswer a →
      (handle_request reason reg maxIter mem request).2.turns =
        mem.turns ++ [⟨Role.user, request⟩, ⟨Role.agent, a⟩])
    ∧ ((handle_request reason reg maxIter mem request).1 =
          DispatchOutcome.iterationLimitExceeded →
        (handle_request reason reg maxIter mem request).2 = mem) := by
  unfold handle_request
  cases h : dispatchLoop reason reg request mem.as_prompt_context maxIter [] with
  | finalAnswer b =>
    refine ⟨?_, ?_⟩
    · intro a ha
      simp only [h] at ha ⊢
      cases ha
      rfl
    · intro ha
      simp only [h] at ha
      exact DispatchOutcome.noConfusion ha
  | iterationLimitExceeded =>
    refine ⟨?_, ?_⟩
    · intro a ha
      simp only [h] at ha
      exact DispatchOutcome.noConfusion ha
    · intro _
      simp only [h]

/-- Witness for claim C3: a one-step terminal decision appends exactly the
user and agent turns to an initially empty memory. -/
theorem handle_request_memory_frame_witness :
    (handle_request (fun _ _ _ => Decision.finish "done") [] 1
        { memory_key := "chat_history", human_prefix := "Human", ai_prefix := "AI",
          turns := [] } "hi").2.turns =
      [⟨Role.user, "hi"⟩, ⟨Role.agent, "done"⟩] :=
  (handle_request_memory_frame (fun _ _ _ => Decision.finish "done") [] 1
      { memory_key := "chat_history", human_prefix := "Human", ai_prefix := "AI",
        turns := [] } "hi").1 "done" rfl

/-- Claim C6: a reasoning decision naming an action absent from the
Capability Registry does not abort the request: the registry lookup yields
the `UnknownCapabilityError` value at its boundary (no exception past it),
the Dispatch Loop synthesizes the well-formed unknown-capability observation
and continues into the next reasoning iteration on the extended scratchpad,
still bounded by the remaining iteration budget. -/
theorem dispatch_unknown_capability_feedback
    (reason : String → String → List AgentStep → Decision)
    (reg : List Capability) (request memCtx : String) (fuel : Nat)
    (pad : List AgentStep) (name inp : String)
    (hdec : reason request memCtx pad = Decision.act name inp)
    (hreg : reg.find? (fun c => c.name == name) = none) :
    registryInvoke reg name inp = Except.error (RegistryError.unknownCapability name)
    ∧ dispatchLoop reason reg request memCtx (fuel + 1) pad =
        dispatchLoop reason reg request memCtx fuel
          (pad ++ [⟨name, inp, unknownCapabilityObservation name⟩]) := by
  have hri : registryInvoke reg name inp =
      Except.error (RegistryError.unknownCapability name) := by
    unfold registryInvoke
    rw [hreg]
  refine ⟨hri, ?_⟩
  simp only [dispatchLoop, hdec, hri]

/-- Witness for claim C6: the misspelled capability `send_emial` with an
empty registry produces the unknown-capability observation and the loop
proceeds to the next iteration. -/
theorem dispatch_unknown_capability_feedback_witness :
    registryInvoke [] "send_emial" "x" =
      Except.error (RegistryError.unknownCapability "send_emial")
    ∧ dispatchLoop (fun _ _ _ => Decision.act "send_emial" "x") [] "r" "ctx" 1 [] =
        dispatchLoop (fun _ _ _ => Decision.act "send_emial" "x") [] "r" "ctx" 0
          [⟨"send_emial", "x", unknownCapabilityObservation "send_emial"⟩] :=
  dispatch_unknown_capability_feedback (fun _ _ _ => Decision.act "send_emial" "x")
    [] "r" "ctx" 0 [] "send_emial" "x" rfl rfl

/-- Claim C8: rendering identical Conversation Memory contents yields
byte-identical text: `as_prompt_context` is a function of the turn log and
the rendering prefixes only, so two memories agreeing on those render the
same string regardless of any other field. -/
theorem as_prompt_context_deterministic (m1 m2 : ConversationMemory)
    (ht : m1.turns = m2.turns) (hh : m1.human_prefix = m2.human_prefix)
    (ha : m1.ai_prefix = m2.ai_prefix) :
    m1.as_prompt_context = m2.as_prompt_context := by
  unfold ConversationMemory.as_prompt_context
  rw [ht, hh, ha]

/-- Witness for claim C8: two memories with the same contents but different
`memory_key` render identically. -/
theorem as_prompt_context_deterministic_witness :
    ConversationMemory.as_prompt_context
        { memory_key := "chat_history", human_prefix := "Human", ai_prefix := "AI",
          turns := [⟨Role.user, "hi"⟩] } =
      ConversationMemory.as_prompt_context
        { memory_key := "other_key", human_prefix := "Human", ai_prefix := "AI",
          turns := [⟨Role.user, "hi"⟩] } :=
  as_prompt_context_deterministic
    { memory_key := "chat_history", human_prefix := "Human", ai_prefix := "AI",
      turns := [⟨Role.user, "hi"⟩] }
    { memory_key := "other_key", human_prefix := "Human", ai_prefix := "AI",
      turns := [⟨Role.user, "hi"⟩] } rfl rfl rfl
